import Mathlib

/-!
Verification of the go-mcp-local-filesystem MCP server (`server.go`).

The development shallowly embeds the server's protocol dispatcher and the
sandboxed filesystem access layer.  Strings are modelled as Lean `String`s
manipulated through their character lists (Go indexes bytes; every input
exercised here is ASCII, where the two views coincide).  Filesystem
interaction (`os.ReadFile`, `os.ReadDir`, `filepath.WalkDir`) is modelled as
an oracle carried in an `Env` record: the server code is embedded exactly,
while the operating system's answers are parameters.  `filepath.WalkDir`
is modelled by the ordered list of entries (and possible error) it reports
to the callback, matching Go's sorted directory traversal.
-/

/-- JSON values as decoded by `encoding/json` into `interface\x7b\x7d`.
Numbers are modelled as integers: identifiers are opaque and never
computed with, so float representation is irrelevant here. -/
inductive JValue where
  | null : JValue
  | bool (b : Bool) : JValue
  | num (n : Int) : JValue
  | str (s : String) : JValue
  | arr (elems : List JValue) : JValue
  | obj (fields : List (String × JValue)) : JValue
deriving Repr

/-- Field lookup in a decoded JSON object / Go map.  `encoding/json` lets a
later duplicate key overwrite an earlier one, hence the reversal. -/
def jfield (fs : List (String × JValue)) (k : String) : Option JValue :=
  fs.reverse.lookup k

/- ### Go path primitives (`path/filepath`, `strings`) used by server.go -/

/-- strings.HasPrefix s pre. -/
def goStartsWith (s pre : String) : Bool :=
  pre.data.isPrefixOf s.data

/-- strings.TrimPrefix s pre. -/
def goTrimPref (s pre : String) : String :=
  if pre.data.isPrefixOf s.data then ⟨s.data.drop pre.data.length⟩ else s

/-- Split a character list on the separator. -/
def splitSlash : List Char → List String
  | [] => [""]
  | c :: rest =>
    let r := splitSlash rest
    if c = '/' then "" :: r
    else
      match r with
      | [] => [String.mk [c]]
      | h :: t => (String.mk [c] ++ h) :: t

/-- Join path components with the separator. -/
def joinComps : List String → String
  | [] => ""
  | [c] => c
  | c :: rest => c ++ "/" ++ joinComps rest

/-- One step of filepath.Clean's ".."-elimination; the accumulator holds the
output components in reverse order. -/
def cleanStep (rooted : Bool) (acc : List String) (c : String) : List String :=
  if c = ".." then
    match acc with
    | [] => if rooted then [] else [".."]
    | a :: rest => if a = ".." then ".." :: a :: rest else rest
  else c :: acc

/-- filepath.Clean for Unix separators: drop empty and "." components,
resolve ".." component-wise, preserve rootedness. -/
def goClean (path : String) : String :=
  if path = "" then "."
  else
    let rooted := path.data.head? = some '/'
    let comps := (splitSlash path.data).filter (fun c => c ≠ "" ∧ c ≠ ".")
    let out := (comps.foldl (cleanStep rooted) []).reverse
    if rooted then "/" ++ joinComps out
    else if out = [] then "." else joinComps out

/-- filepath.Join for two elements: empty elements are dropped, the result
is Cleaned; Join of two empties is "" (no Clean applied). -/
def goJoin (a b : String) : String :=
  if a = "" then (if b = "" then "" else goClean b)
  else if b = "" then goClean a
  else goClean (a ++ "/" ++ b)

/-- filepath.IsAbs on Unix. -/
def goIsAbs (p : String) : Bool :=
  p.data.head? = some '/'

/-- filepath.Abs relative to an explicit working directory `cwd` (Go reads
it from the process; its only error case, Getwd failing, is outside this
model, so the embedded handlers' Abs-error branches are dead here). -/
def goAbs (cwd p : String) : String :=
  if goIsAbs p then goClean p else goJoin cwd p

/-- Components of a cleaned path, with the root marker stripped. -/
def pathComps (s : String) : List String :=
  if s = "" then []
  else
    let body := if s.data.head? = some '/' then ⟨s.data.drop 1⟩ else s
    if body = "" then [] else splitSlash body.data

/-- Longest common prefix removal for two component lists. -/
def dropCommon : List String → List String → List String × List String
  | a :: as, b :: bs => if a = b then dropCommon as bs else (a :: as, b :: bs)
  | as, bs => (as, bs)

/-- filepath.Rel basepath targpath (Unix, no volumes): Clean both, strip the
common component prefix, then go up with ".." before going down.  Errors
(as in Go) when exactly one side is rooted or when the remaining base
starts with "..". -/
def goRel (basepath targpath : String) : Except String String :=
  let base0 := goClean basepath
  let targ := goClean targpath
  if targ = base0 then .ok "."
  else
    let base := if base0 = "." then "" else base0
    let errMsg := "Rel: can't make " ++ targpath ++ " relative to " ++ basepath
    if (goIsAbs base) ≠ (goIsAbs targ) then .error errMsg
    else
      let (brest, trest) := dropCommon (pathComps base) (pathComps targ)
      if brest.head? = some ".." then .error errMsg
      else if brest = [] then .ok (joinComps trest)
      else .ok (joinComps (List.replicate brest.length ".." ++ trest))

/-- filepath.Ext: the suffix of the final path element starting at its last
dot, or "" when the final element has no dot. -/
def goExt (p : String) : String :=
  let seg := p.data.reverse.takeWhile (fun c => c ≠ '/')
  match seg.findIdx? (fun c => c = '.') with
  | none => ""
  | some i => ⟨(seg.take (i + 1)).reverse⟩

/-- strings.ToLower, restricted to ASCII case mapping (every extension in
the server's table is ASCII; Go's Unicode folding never maps a non-ASCII
rune onto these ASCII keys for the inputs considered here). -/
def goToLowerAscii (s : String) : String :=
  ⟨s.data.map (fun c => if 'A' ≤ c ∧ c ≤ 'Z' then Char.ofNat (c.toNat + 32) else c)⟩

/-- getMimeType from server.go: the fixed extension table. -/
def getMimeType (ext : String) : String :=
  let e := goToLowerAscii ext
  if e = ".txt" ∨ e = ".md" ∨ e = ".markdown" then "text/plain"
  else if e = ".json" then "application/json"
  else if e = ".xml" then "application/xml"
  else if e = ".html" ∨ e = ".htm" then "text/html"
  else if e = ".css" then "text/css"
  else if e = ".js" then "application/javascript"
  else if e = ".go" then "text/plain"
  else if e = ".py" then "text/plain"
  else if e = ".java" then "text/plain"
  else if e = ".c" ∨ e = ".cpp" ∨ e = ".h" then "text/plain"
  else "application/octet-stream"

/- ### filepath.Match (shell glob), translated from Go's match.go -/

/-- Strip the leading run of stars from a pattern (first phase of Go's
scanChunk). -/
def stripStars : List Char → Bool × List Char
  | '*' :: rest => (true, (stripStars rest).2)
  | p => (false, p)

/-- Second phase of Go's scanChunk: cut the pattern at the next `*` that is
outside a character class, honouring backslash escapes. -/
def scanBody : List Char → Bool → List Char × List Char
  | [], _ => ([], [])
  | ['\\'], inr =>
    let _ := inr
    (['\\'], [])
  | '\\' :: c :: rest, inr =>
    let (chunk, r) := scanBody rest inr
    ('\\' :: c :: chunk, r)
  | '[' :: rest, _ =>
    let (chunk, r) := scanBody rest true
    ('[' :: chunk, r)
  | ']' :: rest, _ =>
    let (chunk, r) := scanBody rest false
    (']' :: chunk, r)
  | '*' :: rest, inr =>
    if inr then
      let (chunk, r) := scanBody rest true
      ('*' :: chunk, r)
    else ([], '*' :: rest)
  | c :: rest, inr =>
    let (chunk, r) := scanBody rest inr
    (c :: chunk, r)

/-- Go's scanChunk: strip leading stars, then take the chunk up to the next
top-level star. -/
def scanChunk (p : List Char) : Bool × List Char × List Char :=
  let (star, p') := stripStars p
  let (chunk, rest) := scanBody p' false
  (star, chunk, rest)

/-- Go's getEsc: read one (possibly escaped) class character; ErrBadPattern
when the class is malformed or unterminated. -/
def getEsc : List Char → Except Unit (Char × List Char)
  | [] => .error ()
  | c :: rest =>
    if c = '-' ∨ c = ']' then .error ()
    else if c = '\\' then
      match rest with
      | [] => .error ()
      | d :: rest' => if rest' = [] then .error () else .ok (d, rest')
    else if rest = [] then .error () else .ok (c, rest)

/-- The range-parsing loop of Go's matchChunk `[...]` case.  `r` is the rune
being matched (rune 0 when the match has already failed, as in Go), `m` the
match accumulator, `n` the number of ranges seen.  Fuel is at least the
chunk length plus one, which the callers supply. -/
def parseRanges (r : Char) : Nat → List Char → Bool → Nat → Except Unit (Bool × List Char)
  | 0, _, _, _ => .error ()
  | fuel + 1, chunk, m, n =>
    if chunk.head? = some ']' ∧ 0 < n then .ok (m, chunk.tail)
    else do
      let (lo, chunk1) ← getEsc chunk
      let (hi, chunk2) ←
        if chunk1.head? = some '-' then getEsc chunk1.tail else pure (lo, chunk1)
      parseRanges r fuel chunk2 (m || (lo ≤ r ∧ r ≤ hi)) (n + 1)

/-- Go's matchChunk with its `failed` flag: consume a chunk against the head
of `s`; `.ok (some rest)` is a match leaving `rest`, `.ok none` a failed
match with well-formed pattern, `.error` a bad pattern. -/
def matchChunkF : Nat → List Char → List Char → Bool → Except Unit (Option (List Char))
  | 0, _, _, _ => .error ()
  | fuel + 1, chunk, s, failed0 =>
    match chunk with
    | [] => if failed0 then .ok none else .ok (some s)
    | c :: chunkRest =>
      let failed := failed0 || s.isEmpty
      if c = '[' then
        let (r, s') :=
          match failed, s with
          | false, a :: tl => (a, tl)
          | _, _ => (Char.ofNat 0, s)
        let (negated, chunk2) :=
          if chunkRest.head? = some '^' then (true, chunkRest.tail) else (false, chunkRest)
        match parseRanges r (chunk2.length + 1) chunk2 false 0 with
        | .error e => .error e
        | .ok (m, chunk3) => matchChunkF fuel chunk3 s' (failed || (m == negated))
      else if c = '?' then
        match failed, s with
        | false, a :: tl => matchChunkF fuel chunkRest tl (a = '/')
        | _, _ => matchChunkF fuel chunkRest s true
      else if c = '\\' then
        match chunkRest with
        | [] => .error ()
        | d :: rest2 =>
          match failed, s with
          | false, a :: tl => matchChunkF fuel rest2 tl (d ≠ a)
          | _, _ => matchChunkF fuel rest2 s true
      else
        match failed, s with
        | false, a :: tl => matchChunkF fuel chunkRest tl (c ≠ a)
        | _, _ => matchChunkF fuel chunkRest s true

/-- matchChunk with enough fuel for its chunk. -/
def matchChunkGo (chunk s : List Char) : Except Unit (Option (List Char)) :=
  matchChunkF (chunk.length + 1) chunk s false

/-- The star-skip loop of Go's Match: try the chunk at every strict suffix
of the name that does not cross a separator.  `.ok (some t)` resumes the
outer loop with name `t`; `.ok none` exhausts the candidates. -/
def tryStarSkips (chunk pat : List Char) : List Char → Except Unit (Option (List Char))
  | [] => .ok none
  | a :: rest =>
    if a = '/' then .ok none
    else
      match matchChunkGo chunk rest with
      | .error e => .error e
      | .ok (some t) =>
        if pat = [] ∧ t ≠ [] then tryStarSkips chunk pat rest else .ok (some t)
      | .ok none => tryStarSkips chunk pat rest

/-- The final validity sweep of Go's Match: after a mismatch, the remainder
of the pattern is still checked for syntax errors. -/
def checkRemainder : Nat → List Char → Except Unit Bool
  | 0, _ => .error ()
  | fuel + 1, pat =>
    match pat with
    | [] => .ok false
    | _ :: _ =>
      let (_, chunk, rest) := scanChunk pat
      match matchChunkGo chunk [] with
      | .error e => .error e
      | .ok _ => checkRemainder fuel rest

/-- The main loop of Go's Match.  Fuel is at least the pattern length plus
one; every iteration consumes at least one pattern character. -/
def matchLoop : Nat → List Char → List Char → Except Unit Bool
  | 0, _, _ => .error ()
  | fuel + 1, pat, name =>
    match pat with
    | [] => .ok name.isEmpty
    | _ :: _ =>
      let (star, chunk, rest) := scanChunk pat
      if star ∧ chunk = [] then .ok (!name.contains '/')
      else
        match matchChunkGo chunk name with
        | .error e => .error e
        | .ok (some t) =>
          if t = [] ∨ rest ≠ [] then matchLoop fuel rest t
          else if star then
            match tryStarSkips chunk rest name with
            | .error e => .error e
            | .ok (some t') => matchLoop fuel rest t'
            | .ok none => checkRemainder (rest.length + 1) rest
          else checkRemainder (rest.length + 1) rest
        | .ok none =>
          if star then
            match tryStarSkips chunk rest name with
            | .error e => .error e
            | .ok (some t') => matchLoop fuel rest t'
            | .ok none => checkRemainder (rest.length + 1) rest
          else checkRemainder (rest.length + 1) rest

/-- filepath.Match pattern name; `.error` models ErrBadPattern. -/
def goMatch (pattern name : String) : Except Unit Bool :=
  matchLoop (pattern.data.length + 1) pattern.data name.data

/- ### Protocol envelope types (server.go message types) -/

/-- RPCError from server.go (the Data field is never populated). -/
structure RPCError where
  code : Int
  message : String
deriving Repr

structure ResourcesCapability where
  subscribe : Bool
  listChanged : Bool
deriving Repr

structure ToolsCapability where
  listChanged : Bool
deriving Repr

structure ServerCapabilities where
  resources : Option ResourcesCapability
  tools : Option ToolsCapability
deriving Repr

structure ServerInfo where
  name : String
  version : String
deriving Repr

structure InitResult where
  protocolVersion : String
  capabilities : ServerCapabilities
  serverInfo : ServerInfo
deriving Repr

structure Resource where
  uri : String
  name : String
  description : String
  mimeType : String
deriving Repr

structure ResourceContent where
  uri : String
  mimeType : String
  text : String
  blob : String
deriving Repr

structure Tool where
  name : String
  description : String
  inputSchema : JValue
deriving Repr

structure ToolContent where
  ty : String
  text : String
deriving Repr

structure CallToolResult where
  content : List ToolContent
  isError : Bool
deriving Repr

/-- The typed payloads the server ever places in a response's result
field (one constructor per Result struct marshalled by server.go). -/
inductive ResultPayload where
  | initRes (r : InitResult)
  | listResourcesRes (resources : List Resource)
  | readResourceRes (contents : List ResourceContent)
  | listToolsRes (tools : List Tool)
  | callToolRes (r : CallToolResult)
deriving Repr

/-- An outgoing JSONRPCMessage as built by sendError / sendResult.  A `none`
in `id`, `result` or `error` is a field Go's omitempty drops from the
serialized envelope. -/
structure OutEnvelope where
  jsonrpc : String
  id : Option JValue
  result : Option ResultPayload
  error : Option RPCError
deriving Repr

/-- sendError from server.go. -/
def sendError (id : Option JValue) (code : Int) (message : String) : OutEnvelope :=
  { jsonrpc := "2.0", id := id, result := none, error := some ⟨code, message⟩ }

/-- sendResult from server.go. -/
def sendResult (id : Option JValue) (result : ResultPayload) : OutEnvelope :=
  { jsonrpc := "2.0", id := id, result := some result, error := none }

/-- sendToolResult from server.go: wraps text in a CallToolResult. -/
def sendToolResult (id : Option JValue) (text : String) (isError : Bool) : OutEnvelope :=
  sendResult id (.callToolRes ⟨[⟨"text", text⟩], isError⟩)

/- ### Filesystem oracle -/

/-- Outcome of os.ReadFile at a path. -/
inductive ReadOutcome where
  | content (s : String)
  | notExist
  | failure (errText : String)

/-- One entry as returned by os.ReadDir; `size` is `none` when
DirEntry.Info fails. -/
structure DirEntry where
  name : String
  isDir : Bool
  size : Option Int

/-- Outcome of os.ReadDir at a path. -/
inductive DirOutcome where
  | entries (es : List DirEntry)
  | notExist
  | failure (errText : String)

/-- One callback invocation of filepath.WalkDir over the base directory:
either an entry (path, base name, directory flag) in traversal order, or
an error reported to the callback (which both walk callbacks in server.go
propagate, aborting the walk). -/
inductive WalkEvent where
  | entry (path : String) (name : String) (isDir : Bool)
  | failure (errText : String)

/-- The server's environment: its configuration plus the oracle answers of
the operating system during one request. -/
structure Env where
  cwd : String
  baseDir : String
  readFile : String → ReadOutcome
  readDir : String → DirOutcome
  walkEvents : List WalkEvent

/- ### Handlers (direct translations from server.go) -/

/-- handleInitialize: the reply is a fixed InitializeResult; the decoded
parameters are only logged. -/
def handleInit (id : Option JValue) : List OutEnvelope :=
  [sendResult id (.initRes
    { protocolVersion := "2024-11-05"
      capabilities :=
        { resources := some { subscribe := false, listChanged := false }
          tools := some { listChanged := false } }
      serverInfo := { name := "file-server", version := "1.0.0" } })]

/-- The WalkDir fold inside handleListResources: skip directories, derive
the relative path, build one Resource per regular file; any callback error
(walk error or Rel failure) aborts the walk. -/
def listWalk (baseDir : String) : List WalkEvent → Except String (List Resource)
  | [] => .ok []
  | .failure e :: _ => .error e
  | .entry path _ isDir :: rest =>
    if isDir then listWalk baseDir rest
    else
      match goRel baseDir path with
      | .error e => .error e
      | .ok rel =>
        match listWalk baseDir rest with
        | .error e => .error e
        | .ok rs =>
          .ok ({ uri := "file://" ++ goJoin baseDir rel
                 name := rel
                 description := "File: " ++ rel
                 mimeType := getMimeType (goExt path) } :: rs)

/-- handleListResources from server.go. -/
def handleListResources (env : Env) (id : Option JValue) : List OutEnvelope :=
  match listWalk env.baseDir env.walkEvents with
  | .error e => [sendError id (-32603) ("Failed to list resources: " ++ e)]
  | .ok rs => [sendResult id (.listResourcesRes rs)]

/-- ReadResourceParams. -/
structure ReadResourceParams where
  uri : String

/-- handleReadResource from server.go: scheme check, string-prefix sandbox
check on absolute paths, then the file read with its error mapping. -/
def handleReadResource (env : Env) (id : Option JValue) (params : ReadResourceParams) :
    List OutEnvelope :=
  if goStartsWith params.uri "file://" = false then
    [sendError id (-32602) "Invalid URI scheme, expected file://"]
  else
    if goStartsWith (goAbs env.cwd (goTrimPref params.uri "file://"))
        (goAbs env.cwd env.baseDir) = false then
      [sendError id (-32602) "Access denied: file outside allowed directory"]
    else
      match env.readFile (goAbs env.cwd (goTrimPref params.uri "file://")) with
      | .notExist => [sendError id (-32602) "File not found"]
      | .failure e => [sendError id (-32603) ("Failed to read file: " ++ e)]
      | .content c =>
        [sendResult id (.readResourceRes
          [{ uri := params.uri
             mimeType := getMimeType (goExt (goAbs env.cwd (goTrimPref params.uri "file://")))
             text := c
             blob := "" }])]

/-- The three static tool descriptors returned by handleListTools. -/
def serverTools : List Tool :=
  [ { name := "read_file"
      description := "Read the contents of a file"
      inputSchema := .obj
        [("type", .str "object"),
         ("properties", .obj
           [("path", .obj
             [("type", .str "string"),
              ("description", .str "The path to the file to read")])]),
         ("required", .arr [.str "path"])] }
  , { name := "list_directory"
      description := "List files and directories in a given path"
      inputSchema := .obj
        [("type", .str "object"),
         ("properties", .obj
           [("path", .obj
             [("type", .str "string"),
              ("description",
               .str "The path to the directory to list (optional, defaults to base directory)")])]),
         ("required", .arr [])] }
  , { name := "search_files"
      description := "Search for files by name pattern"
      inputSchema := .obj
        [("type", .str "object"),
         ("properties", .obj
           [("pattern", .obj
             [("type", .str "string"),
              ("description", .str "The filename pattern to search for (supports wildcards)")])]),
         ("required", .arr [.str "pattern"])] }
  ]

/-- handleListTools from server.go. -/
def handleListTools (id : Option JValue) : List OutEnvelope :=
  [sendResult id (.listToolsRes serverTools)]

/-- handleReadFileTool from server.go: required string `path` argument,
join to base, string-prefix sandbox check, then the read with tool-level
error reporting ("File not found" / "Failed to read file"). -/
def handleReadFileTool (env : Env) (id : Option JValue)
    (args : List (String × JValue)) : List OutEnvelope :=
  match jfield args "path" with
  | none => [sendError id (-32602) "Missing required argument: path"]
  | some (JValue.str path) =>
    if goStartsWith (goAbs env.cwd (goJoin env.baseDir path))
        (goAbs env.cwd env.baseDir) = false then
      [sendError id (-32602) "Access denied: file outside allowed directory"]
    else
      match env.readFile (goAbs env.cwd (goJoin env.baseDir path)) with
      | .notExist => [sendToolResult id ("File not found: " ++ path) true]
      | .failure e => [sendToolResult id ("Failed to read file: " ++ e) true]
      | .content c =>
        [sendToolResult id ("Contents of " ++ path ++ ":\n" ++ c) false]
  | some _ => [sendError id (-32602) "Invalid path argument: must be string"]

/-- Rendering of one ReadDir entry by handleListDirectoryTool. -/
def renderEntry (e : DirEntry) : String :=
  if e.isDir then "📁 " ++ e.name ++ "/\n"
  else
    match e.size with
    | some n => "📄 " ++ e.name ++ " (" ++ toString n ++ " bytes)\n"
    | none => "📄 " ++ e.name ++ "\n"

/-- The listing step of handleListDirectoryTool once the target directory
string is fixed. -/
def dirHeader (rel : String) : String :=
  if rel = "." then "Contents of base directory:\n"
  else "Contents of " ++ rel ++ ":\n"

def listDirAt (env : Env) (id : Option JValue) (targetDir : String) : List OutEnvelope :=
  if goStartsWith (goAbs env.cwd targetDir) (goAbs env.cwd env.baseDir) = false then
    [sendError id (-32602) "Access denied: directory outside allowed path"]
  else
    match env.readDir (goAbs env.cwd targetDir) with
    | .notExist => [sendToolResult id ("Directory not found: " ++ targetDir) true]
    | .failure e => [sendToolResult id ("Failed to list directory: " ++ e) true]
    | .entries es =>
      [sendToolResult id
        (dirHeader ((goRel env.baseDir (goAbs env.cwd targetDir)).toOption.getD "") ++
          String.join (es.map renderEntry)) false]

/-- handleListDirectoryTool from server.go: the `path` argument is
optional and defaults to the base directory. -/
def handleListDirectoryTool (env : Env) (id : Option JValue)
    (args : List (String × JValue)) : List OutEnvelope :=
  match jfield args "path" with
  | none => listDirAt env id env.baseDir
  | some (JValue.str p) => listDirAt env id (goJoin env.baseDir p)
  | some _ => [sendError id (-32602) "Invalid path argument: must be string"]

/-- The WalkDir fold inside handleSearchFilesTool: skip directories, match
each base name with filepath.Match, collect relative paths of the hits in
traversal order; a Match error (ErrBadPattern, rendered as Go prints it)
or walk error aborts. -/
def searchWalk (baseDir pattern : String) : List WalkEvent → Except String (List String)
  | [] => .ok []
  | .failure e :: _ => .error e
  | .entry path name isDir :: rest =>
    if isDir then searchWalk baseDir pattern rest
    else
      match goMatch pattern name with
      | .error _ => .error "syntax error in pattern"
      | .ok false => searchWalk baseDir pattern rest
      | .ok true =>
        match goRel baseDir path with
        | .error e => .error e
        | .ok rel =>
          match searchWalk baseDir pattern rest with
          | .error e => .error e
          | .ok ms => .ok (rel :: ms)

/-- handleSearchFilesTool from server.go. -/
def handleSearchFilesTool (env : Env) (id : Option JValue)
    (args : List (String × JValue)) : List OutEnvelope :=
  match jfield args "pattern" with
  | none => [sendError id (-32602) "Missing required argument: pattern"]
  | some (JValue.str pattern) =>
    match searchWalk env.baseDir pattern env.walkEvents with
    | .error e => [sendToolResult id ("Search failed: " ++ e) true]
    | .ok ms =>
      [sendToolResult id
        ("Files matching pattern '" ++ pattern ++ "':\n" ++
          (if ms.isEmpty then "No files found matching the pattern."
           else String.join (ms.map (fun m => "📄 " ++ m ++ "\n")))) false]
  | some _ => [sendError id (-32602) "Invalid pattern argument: must be string"]

/-- CallToolParams. -/
structure CallToolParams where
  name : String
  arguments : List (String × JValue)

/-- handleCallTool from server.go: dispatch on the tool name; the default
branch sends a protocol-level -32601 error. -/
def handleCallTool (env : Env) (id : Option JValue) (params : CallToolParams) :
    List OutEnvelope :=
  if params.name = "read_file" then handleReadFileTool env id params.arguments
  else if params.name = "list_directory" then handleListDirectoryTool env id params.arguments
  else if params.name = "search_files" then handleSearchFilesTool env id params.arguments
  else [sendError id (-32601) ("Tool not found: " ++ params.name)]

/- ### Parameter decoding (encoding/json Unmarshal into the param structs) -/

/-- Unmarshal of a JSON value into a Go string field: absent or null leaves
the zero value, a string is taken verbatim, anything else errors. -/
def decodeStringField : Option JValue → Except Unit String
  | none => .ok ""
  | some .null => .ok ""
  | some (.str s) => .ok s
  | some _ => .error ()

/-- Unmarshal into a Go bool field. -/
def decodeBoolField : Option JValue → Except Unit Bool
  | none => .ok false
  | some .null => .ok false
  | some (.bool b) => .ok b
  | some _ => .error ()

/-- The top level of Unmarshal into a struct must be a JSON object. -/
def asObj : JValue → Except Unit (List (String × JValue))
  | .obj fs => .ok fs
  | _ => .error ()

structure ClientInfo where
  name : String
  version : String

structure RootsCapability where
  listChanged : Bool

structure ClientCapabilities where
  roots : Option RootsCapability
  sampling : Bool

structure InitParams where
  protocolVersion : String
  capabilities : ClientCapabilities
  clientInfo : ClientInfo
  meta : Option (List (String × JValue))

def decodeClientInfo : Option JValue → Except Unit ClientInfo
  | none => .ok ⟨"", ""⟩
  | some .null => .ok ⟨"", ""⟩
  | some (.obj fs) => do
    let n ← decodeStringField (jfield fs "name")
    let v ← decodeStringField (jfield fs "version")
    .ok ⟨n, v⟩
  | some _ => .error ()

def decodeRoots : Option JValue → Except Unit (Option RootsCapability)
  | none => .ok none
  | some .null => .ok none
  | some (.obj fs) => do
    let lc ← decodeBoolField (jfield fs "listChanged")
    .ok (some ⟨lc⟩)
  | some _ => .error ()

/-- The `sampling` pointer field: present object ⇒ true (a non-nil
*SamplingCapability), absent or null ⇒ false (nil pointer). -/
def decodeSampling : Option JValue → Except Unit Bool
  | none => .ok false
  | some .null => .ok false
  | some (.obj _) => .ok true
  | some _ => .error ()

def decodeCaps : Option JValue → Except Unit ClientCapabilities
  | none => .ok ⟨none, false⟩
  | some .null => .ok ⟨none, false⟩
  | some (.obj fs) => do
    let r ← decodeRoots (jfield fs "roots")
    let s ← decodeSampling (jfield fs "sampling")
    .ok ⟨r, s⟩
  | some _ => .error ()

def decodeMeta : Option JValue → Except Unit (Option (List (String × JValue)))
  | none => .ok none
  | some .null => .ok none
  | some (.obj fs) => .ok (some fs)
  | some _ => .error ()

/-- Unmarshal into InitializeParams. -/
def decodeInitParams (v : JValue) : Except Unit InitParams := do
  let fs ← asObj v
  let pv ← decodeStringField (jfield fs "protocolVersion")
  let caps ← decodeCaps (jfield fs "capabilities")
  let ci ← decodeClientInfo (jfield fs "clientInfo")
  let meta ← decodeMeta (jfield fs "meta")
  .ok ⟨pv, caps, ci, meta⟩

/-- Unmarshal into ReadResourceParams. -/
def decodeReadResourceParams (v : JValue) : Except Unit ReadResourceParams := do
  let fs ← asObj v
  let uri ← decodeStringField (jfield fs "uri")
  .ok ⟨uri⟩

/-- Unmarshal into CallToolParams; the arguments map decodes from any JSON
object (an absent or null field leaves the nil map, modelled as []). -/
def decodeCallToolParams (v : JValue) : Except Unit CallToolParams := do
  let fs ← asObj v
  let n ← decodeStringField (jfield fs "name")
  let args ←
    match jfield fs "arguments" with
    | none => Except.ok []
    | some .null => Except.ok []
    | some (.obj a) => Except.ok a
    | some _ => Except.error ()
  .ok ⟨n, args⟩

/- ### Dispatcher and run loop -/

/-- A parsed incoming JSONRPCMessage: Unmarshal leaves `id` and `params`
as nil interfaces when the fields are absent or null, and `method` as ""
when absent. -/
structure InMsg where
  id : Option JValue
  method : String
  params : Option JValue

/-- mustMarshal composed with the re-Unmarshal in handleMessage: a nil
params interface becomes the empty JSON object before decoding. -/
def paramsOrEmpty (p : Option JValue) : JValue :=
  p.getD (.obj [])

/-- handleMessage from server.go: route by method name; decode failures
short-circuit to -32602; unknown methods to -32601; the notification
emits nothing. -/
def handleMessage (env : Env) (msg : InMsg) : List OutEnvelope :=
  if msg.method = "initialize" then
    match decodeInitParams (paramsOrEmpty msg.params) with
    | .error _ => [sendError msg.id (-32602) "Invalid initialize parameters"]
    | .ok _ => handleInit msg.id
  else if msg.method = "notifications/initialized" then
    []
  else if msg.method = "resources/list" then
    handleListResources env msg.id
  else if msg.method = "resources/read" then
    match decodeReadResourceParams (paramsOrEmpty msg.params) with
    | .error _ => [sendError msg.id (-32602) "Invalid read resource parameters"]
    | .ok p => handleReadResource env msg.id p
  else if msg.method = "tools/list" then
    handleListTools msg.id
  else if msg.method = "tools/call" then
    match decodeCallToolParams (paramsOrEmpty msg.params) with
    | .error _ => [sendError msg.id (-32602) "Invalid call tool parameters"]
    | .ok p => handleCallTool env msg.id p
  else
    [sendError msg.id (-32601) ("Method not found: " ++ msg.method)]

/-- One line of input as the Run loop sees it: the raw text plus the
outcome of json.Unmarshal on it (`none` for invalid JSON). -/
structure InLine where
  raw : String
  parsed : Option InMsg

/-- One iteration of the Run loop: skip empty lines; log and drop lines
that fail to parse; otherwise log receipt and dispatch.  The first result
component is the protocol output (stdout), the second the side-channel
log lines (stderr; handler-internal diagnostic logging is elided, it
never reaches the protocol stream). -/
def runStep (env : Env) (l : InLine) : List OutEnvelope × List String :=
  if l.raw = "" then ([], [])
  else
    match l.parsed with
    | none => ([], ["Received: " ++ l.raw, "Invalid JSON"])
    | some m => (handleMessage env m, ["Received: " ++ l.raw])

/-- Run from server.go: fold runStep over the input lines. -/
def runServer (env : Env) : List InLine → List OutEnvelope × List String
  | [] => ([], [])
  | l :: rest =>
    let (o, g) := runStep env l
    let (os, gs) := runServer env rest
    (o ++ os, g ++ gs)

/- ### Spec-side sandbox definition (for the refinement comparison) -/

/-- Modelled from the spec, §4.1 Path Sandbox: the resolution is accepted
only if the canonicalized target equals the canonicalized root or has the
canonicalized root as a strict prefix followed by a path separator
(component-wise containment).  This is the contract the spec states; it is
deliberately NOT the code's check, which compares raw string prefixes. -/
def specSandboxAccepts (root target : String) : Bool :=
  let r := goClean root
  let t := goClean target
  t = r || goStartsWith t (r ++ "/")

/- ### Concrete environments used in closed theorems and witnesses -/

/-- Base directory /a/b; every file reads as "secret". -/
def envSecret : Env :=
  ⟨"/", "/a/b", fun _ => .content "secret", fun _ => .notExist, []⟩

/-- Base directory /base over an empty filesystem. -/
def envEmptyRoot : Env :=
  ⟨"/", "/base", fun _ => .notExist, fun _ => .notExist, []⟩

/-- Base directory /r containing a.md, a.txt, b.txt (walk order is Go's
sorted traversal). -/
def envSearchDemo : Env :=
  ⟨"/", "/r", fun _ => .notExist, fun _ => .notExist,
   [.entry "/r" "r" true, .entry "/r/a.md" "a.md" false,
    .entry "/r/a.txt" "a.txt" false, .entry "/r/b.txt" "b.txt" false]⟩

/-- Base directory /r; every file reads as "hello". -/
def envHello : Env :=
  ⟨"/", "/r", fun _ => .content "hello", fun _ => .notExist, []⟩

/-- The response-envelope invariant: protocol tag "2.0" and exactly one of
result / error present. -/
def wfEnvelope (o : OutEnvelope) : Prop :=
  o.jsonrpc = "2.0" ∧
    ((o.result.isSome = true ∧ o.error = none) ∨ (o.result = none ∧ o.error.isSome = true))

/- ### Helper lemmas -/

theorem wf_sendError (id : Option JValue) (c : Int) (m : String) :
    wfEnvelope (sendError id c m) ∧ (sendError id c m).id = id := by
  simp [wfEnvelope, sendError]

theorem wf_sendResult (id : Option JValue) (r : ResultPayload) :
    wfEnvelope (sendResult id r) ∧ (sendResult id r).id = id := by
  simp [wfEnvelope, sendResult]

theorem wf_sendToolResult (id : Option JValue) (t : String) (e : Bool) :
    wfEnvelope (sendToolResult id t e) ∧ (sendToolResult id t e).id = id := by
  simp [wfEnvelope, sendToolResult, sendResult]


theorem handleReadFileTool_ok (env : Env) (id : Option JValue)
    (args : List (String × JValue)) :
    ∀ o ∈ handleReadFileTool env id args, wfEnvelope o ∧ o.id = id := by
  intro o ho
  unfold handleReadFileTool at ho
  split at ho <;> (try split at ho) <;> (try split at ho)
  all_goals
    simp only [List.mem_singleton] at ho
    subst ho
    first
      | exact wf_sendError ..
      | exact wf_sendToolResult ..
      | exact wf_sendResult ..

theorem listDirAt_ok (env : Env) (id : Option JValue) (t : String) :
    ∀ o ∈ listDirAt env id t, wfEnvelope o ∧ o.id = id := by
  intro o ho
  unfold listDirAt at ho
  split at ho <;> (try split at ho) <;> (try split at ho)
  all_goals
    simp only [List.mem_singleton] at ho
    subst ho
    first
      | exact wf_sendError ..
      | exact wf_sendToolResult ..
      | exact wf_sendResult ..

theorem handleListDirectoryTool_ok (env : Env) (id : Option JValue)
    (args : List (String × JValue)) :
    ∀ o ∈ handleListDirectoryTool env id args, wfEnvelope o ∧ o.id = id := by
  intro o ho
  unfold handleListDirectoryTool at ho
  split at ho
  · exact listDirAt_ok _ _ _ o ho
  · exact listDirAt_ok _ _ _ o ho
  · simp only [List.mem_singleton] at ho
    subst ho
    exact wf_sendError ..

theorem handleSearchFilesTool_ok (env : Env) (id : Option JValue)
    (args : List (String × JValue)) :
    ∀ o ∈ handleSearchFilesTool env id args, wfEnvelope o ∧ o.id = id := by
  intro o ho
  unfold handleSearchFilesTool at ho
  split at ho <;> (try split at ho) <;> (try split at ho)
  all_goals
    simp only [List.mem_singleton] at ho
    subst ho
    first
      | exact wf_sendError ..
      | exact wf_sendToolResult ..
      | exact wf_sendResult ..

theorem handleCallTool_ok (env : Env) (id : Option JValue) (p : CallToolParams) :
    ∀ o ∈ handleCallTool env id p, wfEnvelope o ∧ o.id = id := by
  intro o ho
  unfold handleCallTool at ho
  split at ho
  · exact handleReadFileTool_ok _ _ _ o ho
  · split at ho
    · exact handleListDirectoryTool_ok _ _ _ o ho
    · split at ho
      · exact handleSearchFilesTool_ok _ _ _ o ho
      · simp only [List.mem_singleton] at ho
        subst ho
        exact wf_sendError ..

theorem handleReadResource_ok (env : Env) (id : Option JValue) (p : ReadResourceParams) :
    ∀ o ∈ handleReadResource env id p, wfEnvelope o ∧ o.id = id := by
  intro o ho
  unfold handleReadResource at ho
  split at ho <;> (try split at ho) <;> (try split at ho)
  all_goals
    simp only [List.mem_singleton] at ho
    subst ho
    first
      | exact wf_sendError ..
      | exact wf_sendResult ..

theorem handleListResources_ok (env : Env) (id : Option JValue) :
    ∀ o ∈ handleListResources env id, wfEnvelope o ∧ o.id = id := by
  intro o ho
  unfold handleListResources at ho
  split at ho
  all_goals
    simp only [List.mem_singleton] at ho
    subst ho
    first
      | exact wf_sendError ..
      | exact wf_sendResult ..

theorem handleMessage_ok (env : Env) (msg : InMsg) :
    ∀ o ∈ handleMessage env msg, wfEnvelope o ∧ o.id = msg.id := by
  intro o ho
  unfold handleMessage at ho
  split at ho
  · split at ho
    · simp only [List.mem_singleton] at ho
      subst ho
      exact wf_sendError ..
    · simp only [handleInit, List.mem_singleton] at ho
      subst ho
      exact wf_sendResult ..
  · split at ho
    · exact absurd ho (List.not_mem_nil o)
    · split at ho
      · exact handleListResources_ok _ _ o ho
      · split at ho
        · split at ho
          · simp only [List.mem_singleton] at ho
            subst ho
            exact wf_sendError ..
          · exact handleReadResource_ok _ _ _ o ho
        · split at ho
          · simp only [handleListTools, List.mem_singleton] at ho
            subst ho
            exact wf_sendResult ..
          · split at ho
            · split at ho
              · simp only [List.mem_singleton] at ho
                subst ho
                exact wf_sendError ..
              · exact handleCallTool_ok _ _ _ o ho
            · simp only [List.mem_singleton] at ho
              subst ho
              exact wf_sendError ..

theorem runServer_ok (env : Env) (lines : List InLine) :
    ∀ o ∈ (runServer env lines).1, wfEnvelope o := by
  induction lines with
  | nil => intro o ho; simp [runServer] at ho
  | cons l rest ih =>
    intro o ho
    unfold runServer at ho
    simp only [List.mem_append] at ho
    rcases ho with ho | ho
    · unfold runStep at ho
      split at ho
      · simp at ho
      · split at ho
        · simp at ho
        · exact (handleMessage_ok _ _ o ho).1
    · exact ih o ho

/- ### Claim theorems -/

/-- C1: the claim is FALSE of the code and the spec marks the intended
behavior as the contract (code bug).  The sandbox compares raw string
prefixes of absolute paths, so with root /a/b the sibling /a/bc is
accepted and served — through resources/read (uri file:///a/bc) and
through the read_file tool (path ../bc, joining to /a/bc) — while the
spec's component-wise resolution rejects it. -/
theorem c1_sandbox_accepts_sibling :
    handleReadResource envSecret (some (.num 1)) ⟨"file:///a/bc"⟩ =
      [sendResult (some (.num 1)) (.readResourceRes
        [{ uri := "file:///a/bc", mimeType := "application/octet-stream",
           text := "secret", blob := "" }])] ∧
    handleReadFileTool envSecret (some (.num 1)) [("path", .str "../bc")] =
      [sendToolResult (some (.num 1)) "Contents of ../bc:\nsecret" false] ∧
    specSandboxAccepts "/a/b" "/a/bc" = false ∧
    specSandboxAccepts "/a/b" "/a/b/c" = true := by
  refine ⟨rfl, rfl, rfl, rfl⟩

/-- C2 counterexample: the claim says read_file with a path resolving
outside the root yields a successful envelope carrying an isError
ToolResult; in fact the code answers with a protocol-level -32602 error
envelope (result absent). -/
theorem c2_outside_path_is_protocol_error :
    handleReadFileTool envEmptyRoot (some (.num 2)) [("path", .str "../outside.txt")] =
      [sendError (some (.num 2)) (-32602) "Access denied: file outside allowed directory"] ∧
    (sendError (some (.num 2)) (-32602) "Access denied: file outside allowed directory").result
      = none := by
  exact ⟨rfl, rfl⟩

/-- C2 amended: for a well-typed string path, a missing file produces a
successful envelope with an isError ToolResult mentioning "not found",
while a path resolving outside the root produces a protocol-level
InvalidParams (-32602) error mentioning denial; neither is a raw
filesystem error. -/
theorem c2_read_file_error_shape (env : Env) (id : Option JValue)
    (args : List (String × JValue)) (path : String)
    (hpath : jfield args "path" = some (.str path)) :
    (goStartsWith (goAbs env.cwd (goJoin env.baseDir path)) (goAbs env.cwd env.baseDir)
        = false →
      handleReadFileTool env id args =
        [sendError id (-32602) "Access denied: file outside allowed directory"]) ∧
    (goStartsWith (goAbs env.cwd (goJoin env.baseDir path)) (goAbs env.cwd env.baseDir)
        = true →
      env.readFile (goAbs env.cwd (goJoin env.baseDir path)) = .notExist →
      handleReadFileTool env id args =
        [sendToolResult id ("File not found: " ++ path) true]) := by
  constructor
  · intro hout
    unfold handleReadFileTool
    rw [hpath]
    simp [hout]
  · intro hin hread
    unfold handleReadFileTool
    rw [hpath]
    simp [hin, hread]

/-- C2 witness: read_file for missing.txt against the empty root /base is
a successful envelope whose ToolResult flags the error and says
"File not found: missing.txt". -/
theorem c2_read_file_error_shape_witness :
    handleReadFileTool envEmptyRoot (some (.num 2)) [("path", .str "missing.txt")] =
      [sendToolResult (some (.num 2)) ("File not found: " ++ "missing.txt") true] :=
  (c2_read_file_error_shape envEmptyRoot (some (.num 2))
    [("path", .str "missing.txt")] "missing.txt" rfl).2 rfl rfl

/-- C3 counterexample: the claim says an unknown tool name surfaces as a
tool call failure (successful envelope, error-flagged ToolResult); in
fact handleCallTool answers with a protocol-level -32601 error envelope
(result absent). -/
theorem c3_unknown_tool_is_protocol_error :
    handleCallTool envEmptyRoot (some (.num 3)) ⟨"frobnicate", []⟩ =
      [sendError (some (.num 3)) (-32601) "Tool not found: frobnicate"] ∧
    (sendError (some (.num 3)) (-32601) "Tool not found: frobnicate").result = none := by
  exact ⟨rfl, rfl⟩

/-- C3 amended: every tools/call whose tool name is not read_file,
list_directory or search_files is answered with a protocol-level error
envelope carrying code -32601 and the Tool-not-found message. -/
theorem c3_unknown_tool_protocol_error (env : Env) (id : Option JValue)
    (name : String) (args : List (String × JValue))
    (h1 : name ≠ "read_file") (h2 : name ≠ "list_directory")
    (h3 : name ≠ "search_files") :
    handleCallTool env id ⟨name, args⟩ =
      [sendError id (-32601) ("Tool not found: " ++ name)] := by
  unfold handleCallTool
  simp only [if_neg h1, if_neg h2, if_neg h3]

/-- C3 witness: calling the unknown tool "mystery_tool" yields the -32601
protocol error envelope. -/
theorem c3_unknown_tool_protocol_error_witness :
    handleCallTool envEmptyRoot (some (.num 3)) ⟨"mystery_tool", []⟩ =
      [sendError (some (.num 3)) (-32601) ("Tool not found: " ++ "mystery_tool")] :=
  c3_unknown_tool_protocol_error envEmptyRoot (some (.num 3)) "mystery_tool" []
    (by decide) (by decide) (by decide)

/-- C4: notification silence — every envelope whose method is
notifications/initialized, with or without an id, produces no output at
all; recognition is by method name only. -/
theorem c4_notification_silence (env : Env) (id : Option JValue)
    (params : Option JValue) :
    handleMessage env ⟨id, "notifications/initialized", params⟩ = [] := by
  rfl

theorem runServer_cons (env : Env) (l : InLine) (rest : List InLine) :
    runServer env (l :: rest) =
      ((runStep env l).1 ++ (runServer env rest).1,
       (runStep env l).2 ++ (runServer env rest).2) := by
  rfl

/-- C5: a non-empty input line that fails JSON parsing is discarded — the
protocol output is exactly that of the remaining lines — while the side
channel logs the receipt and the parse failure, and processing continues
with the subsequent lines. -/
theorem c5_invalid_json_discarded (env : Env) (l : InLine) (rest : List InLine)
    (hraw : l.raw ≠ "") (hbad : l.parsed = none) :
    (runServer env (l :: rest)).1 = (runServer env rest).1 ∧
    (runServer env (l :: rest)).2 =
      ("Received: " ++ l.raw) :: "Invalid JSON" :: (runServer env rest).2 := by
  rw [runServer_cons]
  unfold runStep
  rw [if_neg hraw, hbad]
  constructor
  · simp
  · simp

/-- C5 witness: the invalid line "oops" produces no output and is logged,
with processing continuing on the empty remainder. -/
theorem c5_invalid_json_discarded_witness :
    (runServer envEmptyRoot [⟨"oops", none⟩]).1 = (runServer envEmptyRoot []).1 ∧
    (runServer envEmptyRoot [⟨"oops", none⟩]).2 =
      ("Received: " ++ "oops") :: "Invalid JSON" :: (runServer envEmptyRoot []).2 :=
  c5_invalid_json_discarded envEmptyRoot ⟨"oops", none⟩ [] (by decide) rfl

/-- C6: the resources/read error mapping — wrong scheme, sandbox denial
and missing file map to InvalidParams (-32602, with "File not found" for
the missing file), an unreadable file maps to InternalError (-32603), and
success returns the file content as text with the MIME type classified
from the extension table, unknown extensions falling back to
application/octet-stream. -/
theorem c6_read_resource_mapping (env : Env) (id : Option JValue) (uri : String) :
    (goStartsWith uri "file://" = false →
      handleReadResource env id ⟨uri⟩ =
        [sendError id (-32602) "Invalid URI scheme, expected file://"]) ∧
    (goStartsWith uri "file://" = true →
      goStartsWith (goAbs env.cwd (goTrimPref uri "file://")) (goAbs env.cwd env.baseDir)
          = false →
      handleReadResource env id ⟨uri⟩ =
        [sendError id (-32602) "Access denied: file outside allowed directory"]) ∧
    (goStartsWith uri "file://" = true →
      goStartsWith (goAbs env.cwd (goTrimPref uri "file://")) (goAbs env.cwd env.baseDir)
          = true →
      env.readFile (goAbs env.cwd (goTrimPref uri "file://")) = .notExist →
      handleReadResource env id ⟨uri⟩ = [sendError id (-32602) "File not found"]) ∧
    (∀ e, goStartsWith uri "file://" = true →
      goStartsWith (goAbs env.cwd (goTrimPref uri "file://")) (goAbs env.cwd env.baseDir)
          = true →
      env.readFile (goAbs env.cwd (goTrimPref uri "file://")) = .failure e →
      handleReadResource env id ⟨uri⟩ =
        [sendError id (-32603) ("Failed to read file: " ++ e)]) ∧
    (∀ c, goStartsWith uri "file://" = true →
      goStartsWith (goAbs env.cwd (goTrimPref uri "file://")) (goAbs env.cwd env.baseDir)
          = true →
      env.readFile (goAbs env.cwd (goTrimPref uri "file://")) = .content c →
      handleReadResource env id ⟨uri⟩ =
        [sendResult id (.readResourceRes
          [{ uri := uri
             mimeType := getMimeType (goExt (goAbs env.cwd (goTrimPref uri "file://")))
             text := c
             blob := "" }])]) ∧
    getMimeType ".json" = "application/json" ∧
    getMimeType ".md" = "text/plain" ∧
    getMimeType ".bin" = "application/octet-stream" := by
  refine ⟨?_, ?_, ?_, ?_, ?_, rfl, rfl, rfl⟩
  · intro h1
    unfold handleReadResource
    simp [h1]
  · intro h1 h2
    unfold handleReadResource
    simp [h1, h2]
  · intro h1 h2 h3
    unfold handleReadResource
    simp [h1, h2, h3]
  · intro e h1 h2 h3
    unfold handleReadResource
    simp [h1, h2, h3]
  · intro c h1 h2 h3
    unfold handleReadResource
    simp [h1, h2, h3]

/-- C6 witness: reading file:///r/x.json against envHello succeeds with
the file text and the application/json MIME type. -/
theorem c6_read_resource_mapping_witness :
    handleReadResource envHello (some (.num 11)) ⟨"file:///r/x.json"⟩ =
      [sendResult (some (.num 11)) (.readResourceRes
        [{ uri := "file:///r/x.json"
           mimeType := getMimeType (goExt (goAbs envHello.cwd
             (goTrimPref "file:///r/x.json" "file://")))
           text := "hello"
           blob := "" }])] :=
  ((c6_read_resource_mapping envHello (some (.num 11)) "file:///r/x.json").2.2.2.2.1)
    "hello" rfl rfl rfl

/-- C7: search_files with a well-typed string pattern walks the root and
answers from the walk's outcome: an aborted walk (malformed glob or walk
error) is an isError ToolResult "Search failed"; no matches gives the
explicit no-matches message in a non-error ToolResult; otherwise the
matching relative paths are listed in traversal order in a non-error
ToolResult.  The embedded matcher exhibits shell-glob semantics and
rejects the malformed pattern "[". -/
theorem c7_search_files (env : Env) (id : Option JValue)
    (args : List (String × JValue)) (pattern : String)
    (hpat : jfield args "pattern" = some (.str pattern)) :
    ((∀ e, searchWalk env.baseDir pattern env.walkEvents = .error e →
        handleSearchFilesTool env id args =
          [sendToolResult id ("Search failed: " ++ e) true]) ∧
     (searchWalk env.baseDir pattern env.walkEvents = .ok [] →
        handleSearchFilesTool env id args =
          [sendToolResult id
            ("Files matching pattern '" ++ pattern ++ "':\n" ++
              "No files found matching the pattern.") false]) ∧
     (∀ m ms, searchWalk env.baseDir pattern env.walkEvents = .ok (m :: ms) →
        handleSearchFilesTool env id args =
          [sendToolResult id
            ("Files matching pattern '" ++ pattern ++ "':\n" ++
              String.join ((m :: ms).map (fun x => "📄 " ++ x ++ "\n"))) false])) ∧
    goMatch "*.txt" "a.txt" = .ok true ∧
    goMatch "*.txt" "b.txt" = .ok true ∧
    goMatch "*.txt" "a.md" = .ok false ∧
    goMatch "a?c" "abc" = .ok true ∧
    goMatch "[a-c]x" "bx" = .ok true ∧
    goMatch "[" "a.txt" = .error () := by
  refine ⟨⟨?_, ?_, ?_⟩, rfl, rfl, rfl, rfl, rfl, rfl⟩
  · intro e he
    unfold handleSearchFilesTool
    rw [hpat]
    simp [he]
  · intro hok
    unfold handleSearchFilesTool
    rw [hpat]
    simp [hok]
  · intro m ms hok
    unfold handleSearchFilesTool
    rw [hpat]
    simp [hok]

/-- C7 witness: against the root /r holding a.md, a.txt, b.txt, pattern
*.txt lists exactly a.txt and b.txt in traversal order. -/
theorem c7_search_files_witness :
    handleSearchFilesTool envSearchDemo (some (.num 4)) [("pattern", .str "*.txt")] =
      [sendToolResult (some (.num 4))
        ("Files matching pattern '" ++ "*.txt" ++ "':\n" ++
          String.join ((["a.txt"] ++ ["b.txt"]).map (fun x => "📄 " ++ x ++ "\n"))) false] :=
  ((c7_search_files envSearchDemo (some (.num 4)) [("pattern", .str "*.txt")]
    "*.txt" rfl).1.2.2) "a.txt" ["b.txt"] rfl

/-- C8: every emitted response carries the request's id verbatim (numeric
or string, it is never interpreted), and a request with an unknown method
name is answered with a -32601 protocol error that echoes the id. -/
theorem c8_id_echo_unknown_method :
    (∀ (env : Env) (msg : InMsg), ∀ o ∈ handleMessage env msg, o.id = msg.id) ∧
    (∀ (env : Env) (msg : InMsg),
      msg.method ≠ "initialize" →
      msg.method ≠ "notifications/initialized" →
      msg.method ≠ "resources/list" →
      msg.method ≠ "resources/read" →
      msg.method ≠ "tools/list" →
      msg.method ≠ "tools/call" →
      handleMessage env msg =
        [sendError msg.id (-32601) ("Method not found: " ++ msg.method)]) := by
  constructor
  · intro env msg o ho
    exact (handleMessage_ok env msg o ho).2
  · intro env msg h1 h2 h3 h4 h5 h6
    unfold handleMessage
    simp only [if_neg h1, if_neg h2, if_neg h3, if_neg h4, if_neg h5, if_neg h6]

/-- C8 witness: the unknown method "foo/bar" with the string id "abc"
yields the -32601 response, and that response carries the same id. -/
theorem c8_id_echo_unknown_method_witness :
    handleMessage envEmptyRoot ⟨some (.str "abc"), "foo/bar", none⟩ =
      [sendError (some (.str "abc")) (-32601) ("Method not found: " ++ "foo/bar")] ∧
    (sendError (some (.str "abc")) (-32601) ("Method not found: " ++ "foo/bar")).id =
      some (.str "abc") :=
  ⟨c8_id_echo_unknown_method.2 envEmptyRoot ⟨some (.str "abc"), "foo/bar", none⟩
      (by decide) (by decide) (by decide) (by decide) (by decide) (by decide),
   c8_id_echo_unknown_method.1 envEmptyRoot ⟨some (.str "abc"), "foo/bar", none⟩
      _ (List.Mem.head _)⟩

/-- C9: every envelope the server emits over a whole run carries the
protocol tag "2.0" and exactly one of the result and error fields. -/
theorem c9_envelope_invariant (env : Env) (lines : List InLine)
    (o : OutEnvelope) (ho : o ∈ (runServer env lines).1) :
    o.jsonrpc = "2.0" ∧
    ((o.result.isSome = true ∧ o.error = none) ∨
     (o.result = none ∧ o.error.isSome = true)) :=
  runServer_ok env lines o ho

/-- C9 witness: the -32601 response emitted for the unknown method "foo"
satisfies the invariant. -/
theorem c9_envelope_invariant_witness :
    (sendError (some (.num 9)) (-32601) ("Method not found: " ++ "foo")).jsonrpc = "2.0" ∧
    (((sendError (some (.num 9)) (-32601) ("Method not found: " ++ "foo")).result.isSome = true ∧
      (sendError (some (.num 9)) (-32601) ("Method not found: " ++ "foo")).error = none) ∨
     ((sendError (some (.num 9)) (-32601) ("Method not found: " ++ "foo")).result = none ∧
      (sendError (some (.num 9)) (-32601) ("Method not found: " ++ "foo")).error.isSome = true)) :=
  c9_envelope_invariant envEmptyRoot
    [⟨"x", some ⟨some (.num 9), "foo", none⟩⟩] _ (List.Mem.head _)

/-- C10: an absent (or null) params field is replaced by the empty JSON
object before decoding, so decoding succeeds with zero-valued parameter
structs and the handler is invoked normally — for initialize,
resources/read and tools/call alike — with no protocol error and no
panic. -/
theorem c10_absent_params_decode (env : Env) (id : Option JValue) :
    decodeInitParams (paramsOrEmpty none) = .ok ⟨"", ⟨none, false⟩, ⟨"", ""⟩, none⟩ ∧
    decodeReadResourceParams (paramsOrEmpty none) = .ok ⟨""⟩ ∧
    decodeCallToolParams (paramsOrEmpty none) = .ok ⟨"", []⟩ ∧
    handleMessage env ⟨id, "initialize", none⟩ = handleInit id ∧
    handleMessage env ⟨id, "resources/read", none⟩ = handleReadResource env id ⟨""⟩ ∧
    handleMessage env ⟨id, "tools/call", none⟩ = handleCallTool env id ⟨"", []⟩ := by
  exact ⟨rfl, rfl, rfl, rfl, rfl, rfl⟩
